import Mathlib

/-!
Verification development for the `really-wrapped` analytics script
(`src/really-wrapped.mts`).

The script loads Spotify extended-play-history JSON batches into a MongoDB
collection and runs ten aggregation pipelines over it (eight leaderboards
and two scalar summaries), all behind one shared `$match` filter.

Shallow embedding conventions:
* The Mongo collection is a `List PlayRecord` (`Store`) read in insertion
  order; `$match` is `List.filter`.
* `$group` collects groups in first-seen key order (the insertion order of
  group creation); a group's documents keep store order, so `$first` is the
  head of the group's record list.
* `$sort` is determinized as a stable insertion sort on the sorted field,
  descending.  MongoDB itself only promises a descending permutation
  (`isSortOutputDesc` below) and documents that documents with duplicate
  sort-key values may be returned in any order, so only
  tie-order-independent conclusions are read off the determinized form.
* `$round [x, 2]` follows MongoDB's documented semantics: round half to
  even, at 2 decimal places.  Numeric expressions are exact rationals.
* `$dateToString` with format `%Y-%m-%d` on a stored UTC date is computed
  from the epoch-millisecond timestamp by the standard civil-calendar
  algorithm.
* JavaScript code that can throw (`JSON.parse`, property access on an
  `undefined` destructured row) is embedded in `Except String`.
-/

/-- One stored play record (interface `PlayRecord` of the source, after
the importer's `ts: new Date(p.ts)` conversion).  `ts` is the UTC timestamp in
epoch milliseconds.  The always-`null` episode fields of the interface are
omitted; no query reads them. -/
structure PlayRecord where
  ts : Int
  platform : String
  ms_played : Int
  conn_country : String
  ip_addr : String
  master_metadata_track_name : String
  master_metadata_album_artist_name : String
  master_metadata_album_album_name : String
  spotify_track_uri : String
  reason_start : String
  reason_end : String
  shuffle : Bool
  skipped : Bool
  offline : Bool
  offline_timestamp : Int
  incognito_mode : Bool
deriving Repr, DecidableEq

/-- The Mongo collection `imported_plays`, in insertion order. -/
abbrev Store := List PlayRecord

/-- Epoch milliseconds of `new Date("2024-01-01T00:00:00Z")`. -/
def rangeStart : Int := 1704067200000

/-- Epoch milliseconds of `new Date("2025-01-01T00:00:00Z")`. -/
def rangeEnd : Int := 1735689600000

/-- The `$nin` exclusion list of the shared filter. -/
def excludedTrackUris : List String := ["spotify:track:1PZoHdDM71mzOFW1T6H03y"]

/-- The shared `$match` filter object (source lines 81-93): not incognito,
at least 30000 ms played, track uri not excluded, timestamp in the
half-open 2024 range. -/
def filter (r : PlayRecord) : Bool :=
  (r.incognito_mode == false) &&
  decide (30000 ≤ r.ms_played) &&
  (!(excludedTrackUris.contains r.spotify_track_uri)) &&
  (decide (rangeStart ≤ r.ts) && decide (r.ts < rangeEnd))

/-- Documents surviving the shared `$match` stage, in store order. -/
def filteredRecords (st : Store) : List PlayRecord :=
  st.filter filter

/-- Distinct group keys of `l` in first-seen order: the order in which
`$group` creates its groups when reading documents in store order. -/
def firstSeenKeys {α κ : Type} [DecidableEq κ] (key : α → κ) : List α → List κ
  | [] => []
  | a :: rest => key a :: (firstSeenKeys key rest).filter (fun k => decide (k ≠ key a))

/-- The `$group` stage: each first-seen key paired with its documents in
store order. -/
def groupAgg {α κ : Type} [DecidableEq κ] (key : α → κ) (l : List α) :
    List (κ × List α) :=
  (firstSeenKeys key l).map (fun k => (k, l.filter (fun a => decide (key a = k))))

/-- Nearest integer to `q`, resolving exact halves to the even neighbour:
the rounding MongoDB documents for `$round`.  Computed from the reduced
numerator and denominator: `f` is the floor, `r` the nonnegative remainder,
and `2 * r` against the denominator decides below-half, above-half, tie. -/
def roundHalfToEven (q : Rat) : Int :=
  let f := q.num.fdiv (q.den : Int)
  let r := q.num.fmod (q.den : Int)
  if 2 * r < (q.den : Int) then f
  else if ((q.den : Int)) < 2 * r then f + 1
  else if f % 2 = 0 then f else f + 1

/-- The `$round [x, 2]` operator: round to 2 decimal places, half to even.
`Rat.divInt (q.num * 100) q.den` is exactly `q * 100`. -/
def round2 (q : Rat) : Rat :=
  Rat.divInt (roundHalfToEven (Rat.divInt (q.num * 100) (q.den : Int))) 100

/-- Modelled from the spec: the spec's stated rounding mode
round-half-away-from-zero at 2 decimal places, defined only to be compared
against the code's `round2`. -/
def round2AwayFromZero (q : Rat) : Rat :=
  let p := Rat.divInt (q.num * 100) (q.den : Int)
  let f := p.num.fdiv (p.den : Int)
  let r := p.num.fmod (p.den : Int)
  let n : Int :=
    if 2 * r < (p.den : Int) then f
    else if ((p.den : Int)) < 2 * r then f + 1
    else if 0 ≤ q.num then f + 1 else f
  Rat.divInt n 100

/-- Two-digit zero padding for month and day fields. -/
def pad2 (n : Nat) : String :=
  if n < 10 then "0" ++ toString n else toString n

/-- Civil date (year, month, day) of a day count since 1970-01-01, by the
standard era-based Gregorian algorithm. -/
def civilFromDays (z : Nat) : Nat × Nat × Nat :=
  let z2 := z + 719468
  let era := z2 / 146097
  let doe := z2 % 146097
  let yoe := (doe - doe / 1460 + doe / 36524 - doe / 146096) / 365
  let y := yoe + era * 400
  let doy := doe - (365 * yoe + yoe / 4 - yoe / 100)
  let mp := (5 * doy + 2) / 153
  let d := doy - (153 * mp + 2) / 5 + 1
  let m := if mp < 10 then mp + 3 else mp - 9
  (if m ≤ 2 then y + 1 else y, m, d)

/-- The `$dateToString %Y-%m-%d` operator on a stored UTC date, from epoch
milliseconds (accurate for the non-negative timestamps the filter admits). -/
def dateToString (ts : Int) : String :=
  let c := civilFromDays (ts.toNat / 86400000)
  toString c.1 ++ "-" ++ pad2 c.2.1 ++ "-" ++ pad2 c.2.2

/-- Insert `a` into `l` in front of the first element whose key is not
greater: the insertion step of the stable descending sort. -/
def insertDesc {α β : Type} [LinearOrder β] (key : α → β) (a : α) :
    List α → List α
  | [] => [a]
  | b :: rest => if key b ≤ key a then a :: b :: rest else b :: insertDesc key a rest

/-- Determinization of the `$sort {field: -1}` stage as a stable insertion
sort, descending on `key`.  MongoDB only guarantees a descending
permutation (`isSortOutputDesc`): documents with duplicate sort-key values
may be returned in any order, so theorems about program guarantees must
not rely on this function's tie-break. -/
def sortByDesc {α β : Type} [LinearOrder β] (key : α → β) : List α → List α
  | [] => []
  | a :: rest => insertDesc key a (sortByDesc key rest)

/-- MongoDB's documented contract for a `$sort {field: -1}` stage: the
output is some permutation of the input that is descending on the sort
key.  Duplicate sort-key documents may appear in any order, so this
contract does not determine the output uniquely. -/
def isSortOutputDesc {α β : Type} [LinearOrder β] (key : α → β)
    (input output : List α) : Prop :=
  List.Perm input output ∧ List.Pairwise (fun x y => key y ≤ key x) output

/-- First document's field within a group (`$first`); groups are never
empty, the empty default is unreachable. -/
def firstStr (g : List PlayRecord) (f : PlayRecord → String) : String :=
  match g with
  | [] => ""
  | r :: _ => f r

/-- Group document of `getTopTracksByPlayTime` (`$group` on
`$spotify_track_uri` with `$sum` and three `$first` fields). -/
structure TrackTimeGroup where
  id : String
  total_ms_played : Int
  track_name : String
  artist_name : String
  album_name : String
deriving Repr, DecidableEq

/-- Output row of `getTopTracksByPlayTime` after its `$project`. -/
structure TrackTimeRow where
  id : String
  track_name : String
  artist_name : String
  total_mins_played : Rat
  total_hours : Rat
deriving Repr, DecidableEq

/-- Group document of `getTopTracksByPlayCount` (also its output row: that
pipeline has no `$project`). -/
structure TrackCountGroup where
  id : String
  total_play_count : Nat
  track_name : String
  artist_name : String
deriving Repr, DecidableEq

/-- Group document of the two album pipelines (also the output row of
`getTopAlbumsByPlayCount`). -/
structure AlbumGroup where
  id : String
  total_play_time : Int
  total_track_plays_from_album_count : Nat
  artist_name : String
deriving Repr, DecidableEq

/-- Output row of `getTopAlbumsByPlayTime` after its `$project`. -/
structure AlbumTimeRow where
  id : String
  artist_name : String
  total_play_time_mins : Rat
  total_play_time_hours : Rat
deriving Repr, DecidableEq

/-- Group document with a `$sum: "$ms_played"` aggregate (artist-by-time
and day-by-time pipelines). -/
structure SumGroup where
  id : String
  total_play_time : Int
deriving Repr, DecidableEq

/-- Projected row of the artist-by-time and day-by-time pipelines.  In
`getTopArtistsByPlayTime` the `$project` also lists `artist_name: 1`, but
the group documents have no such field, so the output lacks it. -/
structure TimeRow where
  id : String
  total_play_time_mins : Rat
  total_play_time_hours : Rat
deriving Repr, DecidableEq

/-- Group document with a `$sum: 1` count (artist-by-count and day-by-count
pipelines; also their output row). -/
structure CountGroup where
  id : String
  total_play_count : Nat
deriving Repr, DecidableEq

/-- The `$group` stage of `getTopTracksByPlayTime`, in first-seen order. -/
def topTracksGroups (fs : List PlayRecord) : List TrackTimeGroup :=
  (groupAgg (fun r => r.spotify_track_uri) fs).map (fun g =>
    { id := g.1
      total_ms_played := ((g.2).map (fun r => r.ms_played)).sum
      track_name := firstStr g.2 (fun r => r.master_metadata_track_name)
      artist_name := firstStr g.2 (fun r => r.master_metadata_album_artist_name)
      album_name := firstStr g.2 (fun r => r.master_metadata_album_album_name) })

/-- Source lines 95-159: match, group by track uri, sort by total ms
descending, project rounded minutes and hours, limit 10. -/
def getTopTracksByPlayTime (st : Store) : List TrackTimeRow :=
  (((sortByDesc (fun g => g.total_ms_played) (topTracksGroups (filteredRecords st)))).map
    (fun g =>
      { id := g.id
        track_name := g.track_name
        artist_name := g.artist_name
        total_mins_played := round2 (Rat.divInt g.total_ms_played 60000)
        total_hours := round2 (Rat.divInt g.total_ms_played 3600000) })).take 10

/-- The `$group` stage of `getTopTracksByPlayCount`. -/
def topTrackCountGroups (fs : List PlayRecord) : List TrackCountGroup :=
  (groupAgg (fun r => r.spotify_track_uri) fs).map (fun g =>
    { id := g.1
      total_play_count := (g.2).length
      track_name := firstStr g.2 (fun r => r.master_metadata_track_name)
      artist_name := firstStr g.2 (fun r => r.master_metadata_album_artist_name) })

/-- Source lines 161-199: match, group by track uri with `$sum: 1`, sort by
count descending, limit 10 (no projection). -/
def getTopTracksByPlayCount (st : Store) : List TrackCountGroup :=
  (sortByDesc (fun g => g.total_play_count) (topTrackCountGroups (filteredRecords st))).take 10

/-- The `$group` stage shared by both album pipelines. -/
def albumGroups (fs : List PlayRecord) : List AlbumGroup :=
  (groupAgg (fun r => r.master_metadata_album_album_name) fs).map (fun g =>
    { id := g.1
      total_play_time := ((g.2).map (fun r => r.ms_played)).sum
      total_track_plays_from_album_count := (g.2).length
      artist_name := firstStr g.2 (fun r => r.master_metadata_album_artist_name) })

/-- The `$project` stage of `getTopAlbumsByPlayTime`, which in that
pipeline runs before the `$sort`. -/
def albumTimeRows (fs : List PlayRecord) : List AlbumTimeRow :=
  (albumGroups fs).map (fun g =>
    { id := g.id
      artist_name := g.artist_name
      total_play_time_mins := round2 (Rat.divInt g.total_play_time 60000)
      total_play_time_hours := round2 (Rat.divInt g.total_play_time 3600000) })

/-- Source lines 201-251: match, group by album name, project rounded
minutes and hours, then sort by the rounded `total_play_time_mins`
descending, limit 10. -/
def getTopAlbumsByPlayTime (st : Store) : List AlbumTimeRow :=
  (sortByDesc (fun r => r.total_play_time_mins) (albumTimeRows (filteredRecords st))).take 10

/-- Source lines 253-282: match, group by album name, sort by the album's
track-play count descending, limit 10 (no projection). -/
def getTopAlbumsByPlayCount (st : Store) : List AlbumGroup :=
  (sortByDesc (fun g => g.total_track_plays_from_album_count)
    (albumGroups (filteredRecords st))).take 10

/-- The `$group` stage of `getTopArtistsByPlayTime`. -/
def artistTimeGroups (fs : List PlayRecord) : List SumGroup :=
  (groupAgg (fun r => r.master_metadata_album_artist_name) fs).map (fun g =>
    { id := g.1
      total_play_time := ((g.2).map (fun r => r.ms_played)).sum })

/-- Source lines 284-328: match, group by artist name, sort by total play
time descending, project rounded minutes and hours, limit 10. -/
def getTopArtistsByPlayTime (st : Store) : List TimeRow :=
  ((sortByDesc (fun g => g.total_play_time) (artistTimeGroups (filteredRecords st))).map
    (fun g =>
      { id := g.id
        total_play_time_mins := round2 (Rat.divInt g.total_play_time 60000)
        total_play_time_hours := round2 (Rat.divInt g.total_play_time 3600000) })).take 10

/-- The `$group` stage of `getTopArtistsByPlayCount`. -/
def artistCountGroups (fs : List PlayRecord) : List CountGroup :=
  (groupAgg (fun r => r.master_metadata_album_artist_name) fs).map (fun g =>
    { id := g.1
      total_play_count := (g.2).length })

/-- Source lines 330-353: match, group by artist name with `$sum: 1`, sort
by count descending, limit 10. -/
def getTopArtistsByPlayCount (st : Store) : List CountGroup :=
  (sortByDesc (fun g => g.total_play_count) (artistCountGroups (filteredRecords st))).take 10

/-- The `$group` stage of `getTopDaysByPlayTime`, keyed by the
`$dateToString` day of the timestamp. -/
def dayTimeGroups (fs : List PlayRecord) : List SumGroup :=
  (groupAgg (fun r => dateToString r.ts) fs).map (fun g =>
    { id := g.1
      total_play_time := ((g.2).map (fun r => r.ms_played)).sum })

/-- Source lines 355-404: match, group by day string, sort by total play
time descending, project rounded minutes and hours, limit 10. -/
def getTopDaysByPlayTime (st : Store) : List TimeRow :=
  ((sortByDesc (fun g => g.total_play_time) (dayTimeGroups (filteredRecords st))).map
    (fun g =>
      { id := g.id
        total_play_time_mins := round2 (Rat.divInt g.total_play_time 60000)
        total_play_time_hours := round2 (Rat.divInt g.total_play_time 3600000) })).take 10

/-- The `$group` stage of `getTopDaysByPlayCount`. -/
def dayCountGroups (fs : List PlayRecord) : List CountGroup :=
  (groupAgg (fun r => dateToString r.ts) fs).map (fun g =>
    { id := g.1
      total_play_count := (g.2).length })

/-- Source lines 406-440: match, group by day string with `$sum: 1`, sort
by count descending, project both fields unchanged, limit 10. -/
def getTopDaysByPlayCount (st : Store) : List CountGroup :=
  (sortByDesc (fun g => g.total_play_count) (dayCountGroups (filteredRecords st))).take 10

/-- Decidable equality of `Except` results, for evaluating the scalar
summaries on concrete stores. -/
instance {ε α : Type} [DecidableEq ε] [DecidableEq α] : DecidableEq (Except ε α)
  | Except.error a, Except.error b =>
    if h : a = b then Decidable.isTrue (by rw [h])
    else Decidable.isFalse (by intro hh; cases hh; exact h rfl)
  | Except.error _, Except.ok _ => Decidable.isFalse (by intro h; cases h)
  | Except.ok _, Except.error _ => Decidable.isFalse (by intro h; cases h)
  | Except.ok a, Except.ok b =>
    if h : a = b then Decidable.isTrue (by rw [h])
    else Decidable.isFalse (by intro hh; cases hh; exact h rfl)

/-- Source lines 468-499: match, group on the constant `_id: null` with the
ms sum, project the rounded minutes, then `const [r] = ...; return
r.total_mins_played`.  When zero documents match, the pipeline yields no
row, `r` is `undefined`, and the property access throws a `TypeError`. -/
def getTotalMinsPlayed (st : Store) : Except String Rat :=
  match ((groupAgg (fun _ => (0 : Int)) (filteredRecords st)).map
      (fun g => ((g.2).map (fun r => r.ms_played)).sum)).map
      (fun total_ms_played => round2 (Rat.divInt total_ms_played 60000)) with
  | [] => Except.error "TypeError"
  | m :: _ => Except.ok m

/-- Source lines 501-517: match, group by track uri (no aggregates),
`$count`, then `const [r] = ...; return r.unique_tracks_played`.  `$count`
emits no document when its input is empty, so zero matching records make
the property access throw a `TypeError`. -/
def getTotalUniqueTracksPlayed (st : Store) : Except String Nat :=
  match (if (groupAgg (fun r => r.spotify_track_uri) (filteredRecords st)).length = 0
         then ([] : List Nat)
         else [(groupAgg (fun r => r.spotify_track_uri) (filteredRecords st)).length]) with
  | [] => Except.error "TypeError"
  | n :: _ => Except.ok n

/-- Parse outcome of a batch file's raw content: empty string, text that
`JSON.parse` rejects, or a JSON array of play records. -/
inductive FileContent where
  | emptyContent : FileContent
  | malformed : FileContent
  | records : List PlayRecord → FileContent
deriving Repr, DecidableEq

/-- One directory entry seen by `importPlays`. -/
structure BatchFile where
  name : String
  isDirectory : Bool
  content : FileContent
deriving Repr, DecidableEq

/-- Whether the first character list is a prefix of the second. -/
def isPrefixList : List Char → List Char → Bool
  | [], _ => true
  | _ :: _, [] => false
  | p :: ps, c :: cs => (p == c) && isPrefixList ps cs

/-- Whether the character list `pat` occurs inside the second list. -/
def containsSub (pat : List Char) : List Char → Bool
  | [] => isPrefixList pat []
  | c :: cs => isPrefixList pat (c :: cs) || containsSub pat cs

/-- JavaScript's case-sensitive `String.prototype.includes`. -/
def strIncludes (s pat : String) : Bool :=
  containsSub pat.data s.data

/-- JavaScript's `String.prototype.endsWith`. -/
def strEndsWith (s tail : String) : Bool :=
  isPrefixList tail.data.reverse s.data.reverse

/-- One iteration of the `importPlays` loop body (source lines 45-78) on
the accumulated store and log lines.  The `insertMany` call of the source
is commented out, so the store component is never modified; `JSON.parse`
throwing on malformed content is the only error path. -/
def importFile (acc : Store × List String) (f : BatchFile) :
    Except String (Store × List String) :=
  if !(strEndsWith f.name ".json") || !(strIncludes f.name "Audio") || f.isDirectory then
    Except.ok (acc.1, acc.2 ++ ["skipping invalid file " ++ f.name])
  else
    match f.content with
    | FileContent.emptyContent =>
        Except.ok (acc.1, acc.2 ++ ["processing file " ++ f.name,
          "skipping empty file " ++ f.name])
    | FileContent.malformed => Except.error "SyntaxError: Unexpected token in JSON"
    | FileContent.records plays =>
        if plays.length = 0 then
          Except.ok (acc.1, acc.2 ++ ["processing file " ++ f.name,
            "skipping, no records " ++ f.name])
        else
          Except.ok (acc.1, acc.2 ++ ["processing file " ++ f.name,
            "inserting records " ++ toString plays.length])

/-- Source lines 41-79: fold the loop body over the directory listing.  An
uncaught `JSON.parse` exception aborts the whole run. -/
def importPlays (files : List BatchFile) (st : Store) :
    Except String (Store × List String) :=
  match files with
  | [] => Except.ok (st, [])
  | f :: rest =>
    match importFile (st, []) f with
    | Except.error e => Except.error e
    | Except.ok acc =>
      match importPlays rest acc.1 with
      | Except.error e => Except.error e
      | Except.ok res => Except.ok (res.1, acc.2 ++ res.2)

/-- Total filtered milliseconds attributed to one track uri: the integer
millisecond sum of that uri's `$group` fiber. -/
def trackMsSum (st : Store) (uri : String) : Int :=
  (((filteredRecords st).filter (fun r => decide (r.spotify_track_uri = uri))).map
    (fun r => r.ms_played)).sum

/-- Total filtered milliseconds attributed to one album name. -/
def albumMsSum (st : Store) (album : String) : Int :=
  (((filteredRecords st).filter
      (fun r => decide (r.master_metadata_album_album_name = album))).map
    (fun r => r.ms_played)).sum

/-- Total filtered milliseconds attributed to one UTC calendar day. -/
def dayMsSum (st : Store) (day : String) : Int :=
  (((filteredRecords st).filter (fun r => decide (dateToString r.ts = day))).map
    (fun r => r.ms_played)).sum

/-- A concrete play record passing every clause of the shared filter. -/
def sampleRecord : PlayRecord :=
  { ts := 1704067200000
    platform := "ios"
    ms_played := 60000
    conn_country := "US"
    ip_addr := "10.0.0.1"
    master_metadata_track_name := "Song One"
    master_metadata_album_artist_name := "Artist One"
    master_metadata_album_album_name := "Album A"
    spotify_track_uri := "spotify:track:aaa"
    reason_start := "clickrow"
    reason_end := "trackdone"
    shuffle := false
    skipped := false
    offline := false
    offline_timestamp := 0
    incognito_mode := false }

/-- A second passing record: another track on another album, 60200 ms, the
same rounded minutes value as `sampleRecord` but a larger raw ms total. -/
def sampleRecordB : PlayRecord :=
  { sampleRecord with
    master_metadata_track_name := "Song Two"
    master_metadata_album_album_name := "Album B"
    spotify_track_uri := "spotify:track:bbb"
    ms_played := 60200 }

/-- A record the shared filter excludes (incognito session). -/
def incognitoRecord : PlayRecord :=
  { sampleRecord with incognito_mode := true }

/-- A passing record whose 37500 ms put the minutes value exactly on a
two-decimal rounding tie (0.625 minutes). -/
def tieRecord : PlayRecord :=
  { sampleRecord with ms_played := 37500 }

/-- A well-formed audio batch file holding one record. -/
def audioBatch1 : BatchFile :=
  { name := "Streaming_History_Audio_2024_1.json"
    isDirectory := false
    content := FileContent.records [sampleRecord] }

/-- An audio-named batch file whose contents `JSON.parse` rejects. -/
def malformedBatch : BatchFile :=
  { name := "Streaming_History_Audio_2024_2.json"
    isDirectory := false
    content := FileContent.malformed }

/-- A second well-formed audio batch file. -/
def audioBatch3 : BatchFile :=
  { name := "Streaming_History_Audio_2024_3.json"
    isDirectory := false
    content := FileContent.records [sampleRecordB] }

/-- Album row of `sampleRecord`'s album (60000 ms, rounded to 1.00 min). -/
def tieRowA : AlbumTimeRow :=
  { id := "Album A"
    artist_name := "Artist One"
    total_play_time_mins := 1
    total_play_time_hours := Rat.divInt 2 100 }

/-- Album row of `sampleRecordB`'s album (60200 ms, a larger raw total that
also rounds to 1.00 min, tying the sort key of `tieRowA`). -/
def tieRowB : AlbumTimeRow :=
  { id := "Album B"
    artist_name := "Artist One"
    total_play_time_mins := 1
    total_play_time_hours := Rat.divInt 2 100 }

/-- Per-key total of `f` over the key's `$group` fiber of `l`. -/
def fiberSum {α κ : Type} [DecidableEq κ] (key : α → κ) (f : α → Int)
    (l : List α) (k : κ) : Int :=
  ((l.filter (fun a => decide (key a = k))).map f).sum

theorem mem_firstSeenKeys_iff {α κ : Type} [DecidableEq κ] (key : α → κ)
    (l : List α) (k : κ) :
    k ∈ firstSeenKeys key l ↔ k ∈ l.map key := by
  induction l with
  | nil => simp [firstSeenKeys]
  | cons a rest ih =>
    by_cases h : k = key a <;>
      simp [firstSeenKeys, List.mem_filter, ih, h]

theorem firstSeenKeys_nodup {α κ : Type} [DecidableEq κ] (key : α → κ)
    (l : List α) : (firstSeenKeys key l).Nodup := by
  induction l with
  | nil => simp [firstSeenKeys]
  | cons a rest ih =>
    rw [firstSeenKeys, List.nodup_cons]
    constructor
    · simp [List.mem_filter]
    · exact List.Nodup.filter _ ih

theorem filter_key_eq_nil {α κ : Type} [DecidableEq κ] {key : α → κ}
    {l : List α} {k : κ} (h : k ∉ firstSeenKeys key l) :
    l.filter (fun a => decide (key a = k)) = [] := by
  rw [List.filter_eq_nil_iff]
  intro a ha
  simp only [decide_eq_true_eq]
  intro hk
  exact h ((mem_firstSeenKeys_iff key l k).mpr (List.mem_map.mpr ⟨a, ha, hk⟩))

theorem filter_ne_of_not_mem {κ : Type} [DecidableEq κ] {ks : List κ} {k0 : κ}
    (h : k0 ∉ ks) : ks.filter (fun k => decide (k ≠ k0)) = ks := by
  rw [List.filter_eq_self]
  intro k hk
  simp only [decide_eq_true_eq]
  exact fun he => h (he ▸ hk)

theorem not_mem_filter_ne_self {κ : Type} [DecidableEq κ] (ks : List κ) (k0 : κ) :
    k0 ∉ ks.filter (fun k => decide (k ≠ k0)) := by
  simp [List.mem_filter]

theorem fiberSum_cons {α κ : Type} [DecidableEq κ] (key : α → κ) (f : α → Int)
    (a : α) (l : List α) (k : κ) :
    fiberSum key f (a :: l) k = (if key a = k then f a else 0) + fiberSum key f l k := by
  by_cases h : key a = k <;> simp [fiberSum, List.filter_cons, h]

theorem sum_fiberSum_cons_not_mem {α κ : Type} [DecidableEq κ] {key : α → κ}
    (f : α → Int) (a : α) (l : List α) :
    ∀ ks : List κ, key a ∉ ks →
      (ks.map (fiberSum key f (a :: l))).sum = (ks.map (fiberSum key f l)).sum := by
  intro ks
  induction ks with
  | nil => intro _; rfl
  | cons k ks ih =>
    intro h
    rw [List.mem_cons, not_or] at h
    simp only [List.map_cons, List.sum_cons, fiberSum_cons]
    rw [if_neg (fun he => h.1 he), ih h.2]
    omega

theorem sum_fiberSum_cons_mem {α κ : Type} [DecidableEq κ] {key : α → κ}
    (f : α → Int) (a : α) (l : List α) :
    ∀ ks : List κ, ks.Nodup → key a ∈ ks →
      (ks.map (fiberSum key f (a :: l))).sum = f a + (ks.map (fiberSum key f l)).sum := by
  intro ks
  induction ks with
  | nil => intro _ h; cases h
  | cons k ks ih =>
    intro hnd h
    rw [List.nodup_cons] at hnd
    simp only [List.map_cons, List.sum_cons, fiberSum_cons]
    by_cases hk : key a = k
    · rw [if_pos hk, sum_fiberSum_cons_not_mem f a l ks (hk ▸ hnd.1)]
      omega
    · rw [if_neg hk]
      rcases List.mem_cons.mp h with h1 | h2
      · exact absurd h1 hk
      · rw [ih hnd.2 h2]
        omega

theorem sum_fiberSum_filter_ne {α κ : Type} [DecidableEq κ] (key : α → κ)
    (f : α → Int) (l : List α) (k0 : κ) :
    ∀ ks : List κ, ks.Nodup →
      (ks.map (fiberSum key f l)).sum =
        (if k0 ∈ ks then fiberSum key f l k0 else 0) +
          ((ks.filter (fun k => decide (k ≠ k0))).map (fiberSum key f l)).sum := by
  intro ks
  induction ks with
  | nil => intro _; simp
  | cons k ks ih =>
    intro hnd
    rw [List.nodup_cons] at hnd
    by_cases hk : k = k0
    · subst hk
      have hfil : (k :: ks).filter (fun x => decide (x ≠ k)) =
          ks.filter (fun x => decide (x ≠ k)) := by
        simp [List.filter_cons]
      rw [hfil, filter_ne_of_not_mem hnd.1, if_pos (List.mem_cons_self k ks)]
      simp [List.map_cons, List.sum_cons]
    · have hfil : (k :: ks).filter (fun x => decide (x ≠ k0)) =
          k :: ks.filter (fun x => decide (x ≠ k0)) := by
        simp [List.filter_cons, hk]
      rw [hfil]
      simp only [List.map_cons, List.sum_cons]
      rw [ih hnd.2]
      have hmem : (k0 ∈ k :: ks) ↔ (k0 ∈ ks) := by
        constructor
        · intro h
          rcases List.mem_cons.mp h with h1 | h2
          · exact absurd h1.symm hk
          · exact h2
        · intro h
          exact List.mem_cons_of_mem _ h
      by_cases hm : k0 ∈ ks
      · rw [if_pos hm, if_pos (hmem.mpr hm)]
        omega
      · rw [if_neg hm, if_neg (fun hh => hm (hmem.mp hh))]
        omega

theorem sum_fiberSum_firstSeenKeys {α κ : Type} [DecidableEq κ] (key : α → κ)
    (f : α → Int) (l : List α) :
    ((firstSeenKeys key l).map (fiberSum key f l)).sum = (l.map f).sum := by
  induction l with
  | nil => rfl
  | cons a rest ih =>
    simp only [firstSeenKeys, List.map_cons, List.sum_cons]
    rw [fiberSum_cons, if_pos rfl,
      sum_fiberSum_cons_not_mem f a rest _ (not_mem_filter_ne_self _ _)]
    by_cases hm : key a ∈ firstSeenKeys key rest
    · have hc := sum_fiberSum_filter_ne key f rest (key a) (firstSeenKeys key rest)
        (firstSeenKeys_nodup key rest)
      rw [if_pos hm] at hc
      rw [ih] at hc
      omega
    · rw [filter_ne_of_not_mem hm]
      have h0 : fiberSum key f rest (key a) = 0 := by
        rw [fiberSum, filter_key_eq_nil hm]
        rfl
      rw [h0, ih]
      omega

theorem groupAgg_sum {α κ : Type} [DecidableEq κ] (key : α → κ) (f : α → Int)
    (l : List α) :
    ((groupAgg key l).map (fun g => ((g.2).map f).sum)).sum = (l.map f).sum := by
  rw [groupAgg, List.map_map]
  exact sum_fiberSum_firstSeenKeys key f l

theorem firstSeenKeys_length {α κ : Type} [DecidableEq κ] (key : α → κ)
    (l : List α) :
    (firstSeenKeys key l).length = ((l.map key).dedup).length := by
  have h1 := firstSeenKeys_nodup key l
  have h2 : ((l.map key).dedup).Nodup := List.nodup_dedup _
  have h3 : (firstSeenKeys key l).toFinset = ((l.map key).dedup).toFinset := by
    apply Finset.ext
    intro k
    simp [List.mem_toFinset, List.mem_dedup, mem_firstSeenKeys_iff]
  calc (firstSeenKeys key l).length
      = (firstSeenKeys key l).toFinset.card := (List.toFinset_card_of_nodup h1).symm
    _ = ((l.map key).dedup).toFinset.card := by rw [h3]
    _ = ((l.map key).dedup).length := List.toFinset_card_of_nodup h2

theorem mem_insertDesc {α β : Type} [LinearOrder β] (key : α → β) (a x : α) :
    ∀ l : List α, x ∈ insertDesc key a l ↔ x = a ∨ x ∈ l := by
  intro l
  induction l with
  | nil => simp [insertDesc]
  | cons b t ih =>
    simp only [insertDesc]
    split_ifs with hba
    · simp [List.mem_cons]
    · simp only [List.mem_cons, ih]
      tauto

theorem length_insertDesc {α β : Type} [LinearOrder β] (key : α → β) (a : α) :
    ∀ l : List α, (insertDesc key a l).length = l.length + 1 := by
  intro l
  induction l with
  | nil => rfl
  | cons b t ih =>
    simp only [insertDesc]
    split_ifs with hba
    · rfl
    · simp [List.length_cons, ih]

theorem length_sortByDesc {α β : Type} [LinearOrder β] (key : α → β) :
    ∀ l : List α, (sortByDesc key l).length = l.length := by
  intro l
  induction l with
  | nil => rfl
  | cons a t ih =>
    simp [sortByDesc, length_insertDesc, ih]

theorem mem_sortByDesc {α β : Type} [LinearOrder β] (key : α → β) (x : α) :
    ∀ l : List α, x ∈ sortByDesc key l ↔ x ∈ l := by
  intro l
  induction l with
  | nil => simp [sortByDesc]
  | cons a t ih =>
    simp [sortByDesc, mem_insertDesc, ih, List.mem_cons]

theorem pairwise_insertDesc {α β : Type} [LinearOrder β] (key : α → β) (a : α) :
    ∀ l : List α, List.Pairwise (fun x y => key y ≤ key x) l →
      List.Pairwise (fun x y => key y ≤ key x) (insertDesc key a l) := by
  intro l
  induction l with
  | nil =>
    intro _
    simp [insertDesc]
  | cons b t ih =>
    intro h
    rw [List.pairwise_cons] at h
    obtain ⟨hb, ht⟩ := h
    simp only [insertDesc]
    split_ifs with hba
    · rw [List.pairwise_cons]
      constructor
      · intro y hy
        rcases List.mem_cons.mp hy with rfl | hyt
        · exact hba
        · exact le_trans (hb y hyt) hba
      · rw [List.pairwise_cons]
        exact ⟨hb, ht⟩
    · rw [List.pairwise_cons]
      constructor
      · intro y hy
        rcases (mem_insertDesc key a y t).mp hy with rfl | hyt
        · exact le_of_lt (lt_of_not_le hba)
        · exact hb y hyt
      · exact ih ht

theorem pairwise_sortByDesc {α β : Type} [LinearOrder β] (key : α → β) :
    ∀ l : List α, List.Pairwise (fun x y => key y ≤ key x) (sortByDesc key l) := by
  intro l
  induction l with
  | nil => simp [sortByDesc]
  | cons a t ih => exact pairwise_insertDesc key a _ ih

theorem filteredRecords_middle {e : PlayRecord} (h : filter e = false)
    (l1 l2 : Store) :
    filteredRecords (l1 ++ e :: l2) = filteredRecords (l1 ++ l2) := by
  simp [filteredRecords, List.filter_append, List.filter_cons, h]

theorem snd_eq_of_mem_groupAgg {α κ : Type} [DecidableEq κ] {key : α → κ}
    {l : List α} {p : κ × List α} (h : p ∈ groupAgg key l) :
    p.2 = l.filter (fun a => decide (key a = p.1)) := by
  rw [groupAgg] at h
  obtain ⟨k, hk, rfl⟩ := List.mem_map.mp h
  rfl

theorem firstSeenKeys_const {α κ : Type} [DecidableEq κ] (c : κ) :
    ∀ l : List α, l ≠ [] → firstSeenKeys (fun _ => c) l = [c] := by
  intro l
  induction l with
  | nil => intro h; exact absurd rfl h
  | cons a rest ih =>
    intro _
    rw [firstSeenKeys]
    rcases rest with _ | ⟨b, t⟩
    · rfl
    · rw [ih (by simp)]
      simp

/-- C1 counterexample: with a store whose only record is filtered out
(zero records match the ReportFilter), both scalar summaries fail with a
TypeError instead of completing without error, refuting the claim that
they "complete without error and return an absent/undefined value". -/
theorem c1_counterexample :
    filteredRecords [incognitoRecord] = [] ∧
    getTotalMinsPlayed [incognitoRecord] = Except.error "TypeError" ∧
    getTotalUniqueTracksPlayed [incognitoRecord] = Except.error "TypeError" :=
  ⟨by decide, by decide, by decide⟩

/-- C1 (amended): for a store where zero records match the ReportFilter,
every leaderboard report completes without error and returns the empty
list, but the two scalar summaries `getTotalMinsPlayed` and
`getTotalUniqueTracksPlayed` fail with a TypeError, because they read a
property of the absent first result row. -/
theorem c1_empty_filtered_behavior (st : Store) (h : filteredRecords st = []) :
    getTopTracksByPlayTime st = [] ∧
    getTopTracksByPlayCount st = [] ∧
    getTopArtistsByPlayTime st = [] ∧
    getTopArtistsByPlayCount st = [] ∧
    getTopAlbumsByPlayTime st = [] ∧
    getTopAlbumsByPlayCount st = [] ∧
    getTopDaysByPlayTime st = [] ∧
    getTopDaysByPlayCount st = [] ∧
    getTotalMinsPlayed st = Except.error "TypeError" ∧
    getTotalUniqueTracksPlayed st = Except.error "TypeError" := by
  refine ⟨?_, ?_, ?_, ?_, ?_, ?_, ?_, ?_, ?_, ?_⟩ <;>
    simp [getTopTracksByPlayTime, getTopTracksByPlayCount, getTopArtistsByPlayTime,
      getTopArtistsByPlayCount, getTopAlbumsByPlayTime, getTopAlbumsByPlayCount,
      getTopDaysByPlayTime, getTopDaysByPlayCount, getTotalMinsPlayed,
      getTotalUniqueTracksPlayed, topTracksGroups, topTrackCountGroups, albumGroups,
      albumTimeRows, artistTimeGroups, artistCountGroups, dayTimeGroups,
      dayCountGroups, groupAgg, firstSeenKeys, h, sortByDesc]

/-- C1 witness: the amended behaviour at a concrete store whose single
record is incognito. -/
theorem c1_witness :
    getTopTracksByPlayTime [incognitoRecord] = [] ∧
    getTotalMinsPlayed [incognitoRecord] = Except.error "TypeError" := by
  have h := c1_empty_filtered_behavior [incognitoRecord] (by decide)
  exact ⟨h.1, h.2.2.2.2.2.2.2.2.1⟩

/-- C2 counterexample: a successfully decoded non-empty batch logs
"inserting records 1" yet leaves the store empty: the decoded record is
not appended (the `insertMany` call is commented out in the source),
refuting "appends the decoded records to the Store". -/
theorem c2_counterexample :
    importPlays [audioBatch1] [] =
      Except.ok ([], ["processing file Streaming_History_Audio_2024_1.json",
        "inserting records 1"]) ∧
    sampleRecord ∉ ([] : Store) :=
  ⟨by rfl, by simp⟩

/-- C2 (amended): `importPlays` never modifies the Store — whenever it
succeeds, the resulting store equals the input store and no decoded record
is appended or stamped (the insertion with its source-file stamping is
commented out); the program run computes its reports without invoking
`importPlays` at all. -/
theorem c2_import_preserves_store (files : List BatchFile) (st : Store)
    (res : Store × List String) (h : importPlays files st = Except.ok res) :
    res.1 = st := by
  induction files generalizing st res with
  | nil =>
    rw [importPlays] at h
    cases h
    rfl
  | cons f rest ih =>
    rw [importPlays] at h
    cases hf : importFile (st, []) f with
    | error e =>
      rw [hf] at h
      have h2 : (Except.error e : Except String (Store × List String)) =
          Except.ok res := h
      cases h2
    | ok acc =>
      rw [hf] at h
      have h2 : (match importPlays rest acc.1 with
          | Except.error e => (Except.error e : Except String (Store × List String))
          | Except.ok r2 => Except.ok (r2.1, acc.2 ++ r2.2)) = Except.ok res := h
      cases hr : importPlays rest acc.1 with
      | error e =>
        rw [hr] at h2
        cases h2
      | ok r2 =>
        rw [hr] at h2
        cases h2
        have h1 : acc.1 = st := by
          rw [importFile] at hf
          split at hf
          · cases hf
            rfl
          · split at hf
            · cases hf
              rfl
            · cases hf
            · split at hf
              · cases hf
                rfl
              · cases hf
                rfl
        have h2 : r2.1 = acc.1 := ih acc.1 r2 hr
        simp [h2, h1]

/-- C2 witness: the store-preservation conclusion at the concrete
successful one-file import run. -/
theorem c2_witness :
    (([], ["processing file Streaming_History_Audio_2024_1.json",
      "inserting records 1"]) : Store × List String).1 = ([] : Store) :=
  c2_import_preserves_store [audioBatch1] [] _ (by rfl)

/-- C3 counterexample: a malformed batch sitting between two good ones
aborts the entire import run with the `JSON.parse` exception instead of
being logged and skipped; the remaining file is never processed. -/
theorem c3_counterexample :
    importPlays [audioBatch1, malformedBatch, audioBatch3] [] =
      Except.error "SyntaxError: Unexpected token in JSON" := by rfl

/-- C3 (amended): a file that passes the name checks but whose content
fails to decode as JSON makes `JSON.parse` throw, aborting the whole import
run at that file regardless of the remaining files; only
name-check failures, directories, empty files and zero-record batches are
logged and skipped. -/
theorem c3_malformed_aborts (f : BatchFile) (rest : List BatchFile) (st : Store)
    (h1 : (strEndsWith f.name ".json" && strIncludes f.name "Audio" &&
      !f.isDirectory) = true)
    (h2 : f.content = FileContent.malformed) :
    importPlays (f :: rest) st =
      Except.error "SyntaxError: Unexpected token in JSON" := by
  have hcond : (!(strEndsWith f.name ".json") || !(strIncludes f.name "Audio") ||
      f.isDirectory) = false := by
    simp only [Bool.and_eq_true, Bool.not_eq_true'] at h1
    simp [h1.1.1, h1.1.2, h1.2]
  rw [importPlays, importFile, hcond, h2]
  simp

/-- C3 witness: the amended abort behaviour at the concrete malformed
batch file. -/
theorem c3_witness :
    importPlays [malformedBatch] [] =
      Except.error "SyntaxError: Unexpected token in JSON" :=
  c3_malformed_aborts malformedBatch [] [] (by decide) (by rfl)

/-- C4: a play event that is incognito, or below 30000 ms, or outside the
half-open 2024 UTC range, or on the excluded-uri list fails the shared
`$match` filter, and inserting it anywhere in the store leaves every
leaderboard and both scalar summaries unchanged: it contributes to no
report. -/
theorem c4_filter_excludes (e : PlayRecord)
    (h : e.incognito_mode = true ∨ e.ms_played < 30000 ∨ e.ts < rangeStart ∨
      rangeEnd ≤ e.ts ∨ e.spotify_track_uri ∈ excludedTrackUris) :
    filter e = false ∧
    ∀ l1 l2 : Store,
      getTopTracksByPlayTime (l1 ++ e :: l2) = getTopTracksByPlayTime (l1 ++ l2) ∧
      getTopTracksByPlayCount (l1 ++ e :: l2) = getTopTracksByPlayCount (l1 ++ l2) ∧
      getTopArtistsByPlayTime (l1 ++ e :: l2) = getTopArtistsByPlayTime (l1 ++ l2) ∧
      getTopArtistsByPlayCount (l1 ++ e :: l2) = getTopArtistsByPlayCount (l1 ++ l2) ∧
      getTopAlbumsByPlayTime (l1 ++ e :: l2) = getTopAlbumsByPlayTime (l1 ++ l2) ∧
      getTopAlbumsByPlayCount (l1 ++ e :: l2) = getTopAlbumsByPlayCount (l1 ++ l2) ∧
      getTopDaysByPlayTime (l1 ++ e :: l2) = getTopDaysByPlayTime (l1 ++ l2) ∧
      getTopDaysByPlayCount (l1 ++ e :: l2) = getTopDaysByPlayCount (l1 ++ l2) ∧
      getTotalMinsPlayed (l1 ++ e :: l2) = getTotalMinsPlayed (l1 ++ l2) ∧
      getTotalUniqueTracksPlayed (l1 ++ e :: l2) = getTotalUniqueTracksPlayed (l1 ++ l2) := by
  have hf : filter e = false := by
    rcases h with h | h | h | h | h
    · simp [filter, h]
    · have hn : ¬(30000 ≤ e.ms_played) := not_le.mpr h
      simp [filter, hn]
    · have hn : ¬(rangeStart ≤ e.ts) := not_le.mpr h
      simp [filter, hn]
    · have hn : ¬(e.ts < rangeEnd) := not_lt.mpr h
      simp [filter, hn]
    · have he : e.spotify_track_uri = "spotify:track:1PZoHdDM71mzOFW1T6H03y" := by
        simpa [excludedTrackUris] using h
      simp [filter, excludedTrackUris, he]
  refine ⟨hf, fun l1 l2 => ?_⟩
  have hfs := filteredRecords_middle hf l1 l2
  refine ⟨?_, ?_, ?_, ?_, ?_, ?_, ?_, ?_, ?_, ?_⟩ <;>
    simp only [getTopTracksByPlayTime, getTopTracksByPlayCount,
      getTopArtistsByPlayTime, getTopArtistsByPlayCount, getTopAlbumsByPlayTime,
      getTopAlbumsByPlayCount, getTopDaysByPlayTime, getTopDaysByPlayCount,
      getTotalMinsPlayed, getTotalUniqueTracksPlayed] <;>
    rw [hfs]

/-- C4 witness: the exclusion conclusion at the concrete incognito record
inserted in front of a passing record. -/
theorem c4_witness :
    filter incognitoRecord = false ∧
    getTopTracksByPlayTime ([] ++ incognitoRecord :: [sampleRecord]) =
      getTopTracksByPlayTime ([] ++ [sampleRecord]) := by
  have h := c4_filter_excludes incognitoRecord (Or.inl (by decide))
  exact ⟨h.1, (h.2 [] [sampleRecord]).1⟩

/-- C5: for a non-empty filtered set, `getTotalMinsPlayed` returns exactly
the 2-decimal rounding of the filtered-set millisecond sum divided by
60000. -/
theorem c5_total_mins (st : Store) (h : filteredRecords st ≠ []) :
    getTotalMinsPlayed st =
      Except.ok (round2 (Rat.divInt
        (((filteredRecords st).map (fun r => r.ms_played)).sum) 60000)) := by
  rw [getTotalMinsPlayed, groupAgg, firstSeenKeys_const 0 _ h]
  simp [List.filter_eq_self]

/-- C5 witness: the equality at a concrete one-record store. -/
theorem c5_witness :
    getTotalMinsPlayed [sampleRecord] =
      Except.ok (round2 (Rat.divInt
        (((filteredRecords [sampleRecord]).map (fun r => r.ms_played)).sum) 60000)) :=
  c5_total_mins [sampleRecord] (by decide)

/-- C6: for a non-empty filtered set, `getTotalUniqueTracksPlayed` returns
the number of distinct `spotify_track_uri` values among the filtered
records. -/
theorem c6_unique_tracks (st : Store) (h : filteredRecords st ≠ []) :
    getTotalUniqueTracksPlayed st =
      Except.ok (((filteredRecords st).map
        (fun r => r.spotify_track_uri)).dedup.length) := by
  rw [getTotalUniqueTracksPlayed]
  have hlen : (groupAgg (fun r => r.spotify_track_uri) (filteredRecords st)).length =
      ((filteredRecords st).map (fun r => r.spotify_track_uri)).dedup.length := by
    rw [groupAgg, List.length_map, firstSeenKeys_length]
  have hne : ¬((groupAgg (fun r => r.spotify_track_uri) (filteredRecords st)).length = 0) := by
    rw [groupAgg, List.length_map]
    obtain ⟨a, t, he⟩ := List.exists_cons_of_ne_nil h
    rw [he, firstSeenKeys]
    simp
  rw [if_neg hne, hlen]

/-- C6 witness: the distinct-count equality at a concrete two-track store. -/
theorem c6_witness :
    getTotalUniqueTracksPlayed [sampleRecord, sampleRecordB] =
      Except.ok (((filteredRecords [sampleRecord, sampleRecordB]).map
        (fun r => r.spotify_track_uri)).dedup.length) :=
  c6_unique_tracks [sampleRecord, sampleRecordB] (by decide)

/-- C7: the unbounded `$group` stage of Top Tracks by Time partitions the
filtered set: the per-group `total_ms_played` values sum to the ms sum of
the whole filtered set. -/
theorem c7_tracks_partition (st : Store) :
    ((topTracksGroups (filteredRecords st)).map (fun g => g.total_ms_played)).sum =
      ((filteredRecords st).map (fun r => r.ms_played)).sum := by
  rw [topTracksGroups, List.map_map]
  exact groupAgg_sum (fun r => r.spotify_track_uri) (fun r => r.ms_played)
    (filteredRecords st)

/-- C8 counterexample: two albums whose ms totals round to the same
2-decimal minutes (60000 ms and 60200 ms) come out in group-creation
order, "Album A" before "Album B", although "Album B" has the larger raw
ms total: the output is not ordered by descending total ms played. -/
theorem c8_counterexample :
    (getTopAlbumsByPlayTime [sampleRecord, sampleRecordB]).map (fun r => r.id) =
      ["Album A", "Album B"] ∧
    albumMsSum [sampleRecord, sampleRecordB] "Album A" <
      albumMsSum [sampleRecord, sampleRecordB] "Album B" :=
  ⟨by decide, by decide⟩

/-- C8 (amended): `getTopAlbumsByPlayTime` groups by album name, derives
the rounded fields, sorts descending by the rounded `total_play_time_mins`
(not by raw total ms, from which it can differ when two albums round to
the same minutes value), and takes the top 10; each returned row's minutes
field is the 2-decimal rounding of its album's integer ms sum / 60000. -/
theorem c8_albums_sorted_by_rounded_mins (st : Store) :
    List.Pairwise (fun a b => b.total_play_time_mins ≤ a.total_play_time_mins)
      (getTopAlbumsByPlayTime st) ∧
    ∀ r ∈ getTopAlbumsByPlayTime st,
      r.total_play_time_mins = round2 (Rat.divInt (albumMsSum st r.id) 60000) := by
  constructor
  · rw [getTopAlbumsByPlayTime]
    exact List.Pairwise.sublist (List.take_sublist _ _)
      (pairwise_sortByDesc (fun x : AlbumTimeRow => x.total_play_time_mins)
        (albumTimeRows (filteredRecords st)))
  · intro r hr
    rw [getTopAlbumsByPlayTime] at hr
    have hr2 := List.take_subset _ _ hr
    have hr3 := (mem_sortByDesc (fun x => x.total_play_time_mins) r _).mp hr2
    rw [albumTimeRows] at hr3
    obtain ⟨g, hg, rfl⟩ := List.mem_map.mp hr3
    rw [albumGroups] at hg
    obtain ⟨p, hp, rfl⟩ := List.mem_map.mp hg
    have hfib := snd_eq_of_mem_groupAgg hp
    dsimp only
    rw [hfib]
    rfl

/-- C8 witness: the amended minutes equality at the first returned row of
a concrete two-album store. -/
theorem c8_witness :
    ({ id := "Album A", artist_name := "Artist One", total_play_time_mins := 1,
       total_play_time_hours := Rat.divInt 2 100 } : AlbumTimeRow).total_play_time_mins =
      round2 (Rat.divInt (albumMsSum [sampleRecord, sampleRecordB] "Album A") 60000) :=
  (c8_albums_sorted_by_rounded_mins [sampleRecord, sampleRecordB]).2
    { id := "Album A", artist_name := "Artist One", total_play_time_mins := 1,
      total_play_time_hours := Rat.divInt 2 100 } (by decide)

/-- C9 counterexample: one filtered record of 37500 ms is exactly 0.625
minutes; the code's `$round` (half to even) gives 0.62 while the claim's
round-half-away-from-zero gives 0.63, and the repository documents no
rounding mode, so the claim's stated rounding is false on the code. -/
theorem c9_counterexample :
    (getTopTracksByPlayTime [tieRecord]).map (fun r => r.total_mins_played) =
      [Rat.divInt 62 100] ∧
    round2AwayFromZero (Rat.divInt 37500 60000) = Rat.divInt 63 100 ∧
    (Rat.divInt 62 100 : Rat) ≠ Rat.divInt 63 100 :=
  ⟨by decide, by decide, by decide⟩

/-- C9 (amended): every derived minutes field equals the group's integer
millisecond sum divided by 60000 and every hours field the same integer
sum divided by 3600000, each rounded to 2 decimals with round-half-to-even
(MongoDB's documented `$round`), computed directly from the integer ms sum
and never from previously rounded values — shown for the two sourced
projections, tracks by time and days by time. -/
theorem c9_derived_fields (st : Store) :
    (∀ r ∈ getTopTracksByPlayTime st,
      r.total_mins_played = round2 (Rat.divInt (trackMsSum st r.id) 60000) ∧
      r.total_hours = round2 (Rat.divInt (trackMsSum st r.id) 3600000)) ∧
    (∀ r ∈ getTopDaysByPlayTime st,
      r.total_play_time_mins = round2 (Rat.divInt (dayMsSum st r.id) 60000) ∧
      r.total_play_time_hours = round2 (Rat.divInt (dayMsSum st r.id) 3600000)) := by
  constructor
  · intro r hr
    rw [getTopTracksByPlayTime] at hr
    have hr2 := List.take_subset _ _ hr
    obtain ⟨g, hg, rfl⟩ := List.mem_map.mp hr2
    have hg2 := (mem_sortByDesc (fun x => x.total_ms_played) g _).mp hg
    rw [topTracksGroups] at hg2
    obtain ⟨p, hp, rfl⟩ := List.mem_map.mp hg2
    have hfib := snd_eq_of_mem_groupAgg hp
    constructor
    · dsimp only
      rw [hfib]
      rfl
    · dsimp only
      rw [hfib]
      rfl
  · intro r hr
    rw [getTopDaysByPlayTime] at hr
    have hr2 := List.take_subset _ _ hr
    obtain ⟨g, hg, rfl⟩ := List.mem_map.mp hr2
    have hg2 := (mem_sortByDesc (fun x => x.total_play_time) g _).mp hg
    rw [dayTimeGroups] at hg2
    obtain ⟨p, hp, rfl⟩ := List.mem_map.mp hg2
    have hfib := snd_eq_of_mem_groupAgg hp
    constructor
    · dsimp only
      rw [hfib]
      rfl
    · dsimp only
      rw [hfib]
      rfl

/-- C9 witness: the amended minutes equality at the single returned row of
a concrete one-record store. -/
theorem c9_witness :
    ({ id := "spotify:track:aaa", track_name := "Song One",
       artist_name := "Artist One", total_mins_played := 1,
       total_hours := Rat.divInt 2 100 } : TrackTimeRow).total_mins_played =
      round2 (Rat.divInt (trackMsSum [sampleRecord] "spotify:track:aaa") 60000) :=
  ((c9_derived_fields [sampleRecord]).1
    { id := "spotify:track:aaa", track_name := "Song One",
      artist_name := "Artist One", total_mins_played := 1,
      total_hours := Rat.divInt 2 100 } (by decide)).1

/-- C10 counterexample: the two album rows of a concrete store round to
the same 1.00 sort-key minutes; both of their orderings satisfy MongoDB's
documented `$sort` contract (`isSortOutputDesc`) over the group stage's
output, and the two orderings differ.  The code therefore guarantees no
tie order at all — in particular not the stable group-creation order the
claim asserts — since the documented contract admits a run that reverses
the tied rows. -/
theorem c10_counterexample :
    albumTimeRows (filteredRecords [sampleRecord, sampleRecordB]) =
      [tieRowA, tieRowB] ∧
    isSortOutputDesc (fun r => r.total_play_time_mins)
      [tieRowA, tieRowB] [tieRowA, tieRowB] ∧
    isSortOutputDesc (fun r => r.total_play_time_mins)
      [tieRowA, tieRowB] [tieRowB, tieRowA] ∧
    ([tieRowA, tieRowB] : List AlbumTimeRow) ≠ [tieRowB, tieRowA] := by
  refine ⟨by decide, ⟨List.Perm.refl _, by decide⟩,
    ⟨List.Perm.swap tieRowB tieRowA [], by decide⟩, by decide⟩

/-- C10 (amended): every one of the eight leaderboards returns at most 10
rows for any store contents (the `limit(10)` stage); the relative order of
rows whose sort keys tie is not part of this guarantee, because MongoDB
documents that documents with duplicate sort-key values may be returned in
any order. -/
theorem c10_leaderboard_limits (st : Store) :
    (getTopTracksByPlayTime st).length ≤ 10 ∧
    (getTopTracksByPlayCount st).length ≤ 10 ∧
    (getTopArtistsByPlayTime st).length ≤ 10 ∧
    (getTopArtistsByPlayCount st).length ≤ 10 ∧
    (getTopAlbumsByPlayTime st).length ≤ 10 ∧
    (getTopAlbumsByPlayCount st).length ≤ 10 ∧
    (getTopDaysByPlayTime st).length ≤ 10 ∧
    (getTopDaysByPlayCount st).length ≤ 10 := by
  refine ⟨?_, ?_, ?_, ?_, ?_, ?_, ?_, ?_⟩ <;>
    simp only [getTopTracksByPlayTime, getTopTracksByPlayCount,
      getTopArtistsByPlayTime, getTopArtistsByPlayCount, getTopAlbumsByPlayTime,
      getTopAlbumsByPlayCount, getTopDaysByPlayTime, getTopDaysByPlayCount,
      List.length_take] <;> omega
